import Mathlib

set_option maxRecDepth 4096

/-!
Verification development for the `homebridge-motion-blinds-local` repository.

The development shallowly embeds the two components the claims are about:

* `src/motionGateway.ts` — the UDP gateway client.  We embed the outbound
  write-message construction (`writeDevice` / `setPosition`, which clamp the
  transmitted target position), the position-operation codes, and the access
  token derivation `getAccessToken` (AES-128-ECB of the zero-padded session
  nonce under the zero-padded key, rendered as uppercase hexadecimal).
  AES-128 itself is the algorithm named by the source
  (`crypto.createCipheriv('aes-128-ecb', ...)` with auto-padding disabled on a
  single 16-byte block); it is embedded here following FIPS-197 and checked
  against the FIPS-197 appendix C.1 test vector.

* `src/platformAccessory.ts` — the per-device movement tracker
  (`MotionBlindAccessory`).  Its mutable fields become the record
  `TrackerState`; its methods become state transformers.  Network sends and
  scheduled status queries are recorded in an explicit `Effect` list; the
  success or failure of each gateway send is an input (`Bool`) of the
  transition, and a thrown `HapStatusError` is recorded in the `thrown` flag.
  Timers are modelled by the fields `commandTimeoutTimer` (the armed deadline
  duration, `none` when cleared) and `pollTimersActive`.
-/

namespace MotionBlinds

/-! ## Gateway client (`src/motionGateway.ts`) -/

/-- Operation codes of the TS `enum Operation`. -/
def Operation.Close : Nat := 0

def Operation.Open : Nat := 1

def Operation.Stop : Nat := 2

def Operation.StatusQuery : Nat := 5

/-- The `data` object built by `MotionGateway.writeDevice`: the operation code
and, when present, the target position. -/
structure WriteDeviceData where
  operation : Nat
  targetPosition : Option Int
deriving DecidableEq

/-- `MotionGateway.writeDevice`: the outbound `data` payload.  When a target
position is supplied it is clamped by `Math.max(0, Math.min(100, targetPosition))`
before transmission. -/
def writeDevice (operation : Nat) (targetPosition : Option Int) : WriteDeviceData :=
  { operation := operation
    targetPosition := targetPosition.map (fun p => max 0 (min 100 p)) }

/-- `MotionGateway.setPosition`: `writeDevice(mac, Operation.Close, position)`. -/
def setPosition (position : Int) : WriteDeviceData :=
  writeDevice Operation.Close (some position)

/-! ### Access token derivation (`getAccessToken`)

`getAccessToken(key, token)` zero-pads (and truncates) both byte strings to
16 bytes, encrypts the padded token with AES-128-ECB (auto-padding disabled,
a single block) under the padded key, and renders the ciphertext as uppercase
hexadecimal.  AES-128 is embedded below following FIPS-197 and checked
against the FIPS-197 appendix C.1 test vector.  Bytes are `Nat` values. -/

/-- The AES S-box (FIPS-197 figure 7), row-major. -/
def sbox : List Nat :=
  [0x63, 0x7c, 0x77, 0x7b, 0xf2, 0x6b, 0x6f, 0xc5, 0x30, 0x01, 0x67, 0x2b, 0xfe, 0xd7, 0xab, 0x76,
   0xca, 0x82, 0xc9, 0x7d, 0xfa, 0x59, 0x47, 0xf0, 0xad, 0xd4, 0xa2, 0xaf, 0x9c, 0xa4, 0x72, 0xc0,
   0xb7, 0xfd, 0x93, 0x26, 0x36, 0x3f, 0xf7, 0xcc, 0x34, 0xa5, 0xe5, 0xf1, 0x71, 0xd8, 0x31, 0x15,
   0x04, 0xc7, 0x23, 0xc3, 0x18, 0x96, 0x05, 0x9a, 0x07, 0x12, 0x80, 0xe2, 0xeb, 0x27, 0xb2, 0x75,
   0x09, 0x83, 0x2c, 0x1a, 0x1b, 0x6e, 0x5a, 0xa0, 0x52, 0x3b, 0xd6, 0xb3, 0x29, 0xe3, 0x2f, 0x84,
   0x53, 0xd1, 0x00, 0xed, 0x20, 0xfc, 0xb1, 0x5b, 0x6a, 0xcb, 0xbe, 0x39, 0x4a, 0x4c, 0x58, 0xcf,
   0xd0, 0xef, 0xaa, 0xfb, 0x43, 0x4d, 0x33, 0x85, 0x45, 0xf9, 0x02, 0x7f, 0x50, 0x3c, 0x9f, 0xa8,
   0x51, 0xa3, 0x40, 0x8f, 0x92, 0x9d, 0x38, 0xf5, 0xbc, 0xb6, 0xda, 0x21, 0x10, 0xff, 0xf3, 0xd2,
   0xcd, 0x0c, 0x13, 0xec, 0x5f, 0x97, 0x44, 0x17, 0xc4, 0xa7, 0x7e, 0x3d, 0x64, 0x5d, 0x19, 0x73,
   0x60, 0x81, 0x4f, 0xdc, 0x22, 0x2a, 0x90, 0x88, 0x46, 0xee, 0xb8, 0x14, 0xde, 0x5e, 0x0b, 0xdb,
   0xe0, 0x32, 0x3a, 0x0a, 0x49, 0x06, 0x24, 0x5c, 0xc2, 0xd3, 0xac, 0x62, 0x91, 0x95, 0xe4, 0x79,
   0xe7, 0xc8, 0x37, 0x6d, 0x8d, 0xd5, 0x4e, 0xa9, 0x6c, 0x56, 0xf4, 0xea, 0x65, 0x7a, 0xae, 0x08,
   0xba, 0x78, 0x25, 0x2e, 0x1c, 0xa6, 0xb4, 0xc6, 0xe8, 0xdd, 0x74, 0x1f, 0x4b, 0xbd, 0x8b, 0x8a,
   0x70, 0x3e, 0xb5, 0x66, 0x48, 0x03, 0xf6, 0x0e, 0x61, 0x35, 0x57, 0xb9, 0x86, 0xc1, 0x1d, 0x9e,
   0xe1, 0xf8, 0x98, 0x11, 0x69, 0xd9, 0x8e, 0x94, 0x9b, 0x1e, 0x87, 0xe9, 0xce, 0x55, 0x28, 0xdf,
   0x8c, 0xa1, 0x89, 0x0d, 0xbf, 0xe6, 0x42, 0x68, 0x41, 0x99, 0x2d, 0x0f, 0xb0, 0x54, 0xbb, 0x16]

/-- S-box lookup. -/
def sboxAt (b : Nat) : Nat := sbox.getD (b % 256) 0

/-- Multiplication by x in GF(2^8) modulo the AES polynomial x^8+x^4+x^3+x+1. -/
def xtime (b : Nat) : Nat :=
  if b < 128 then b * 2 else (b * 2) ^^^ 0x11b

/-- Multiplication by 3 in GF(2^8). -/
def gmul3 (b : Nat) : Nat := xtime b ^^^ b

/-- SubBytes on a 16-byte state. -/
def subBytes (s : List Nat) : List Nat := s.map sboxAt

/-- ShiftRows on a column-major 16-byte state. -/
def shiftRows (s : List Nat) : List Nat :=
  [s.getD 0 0, s.getD 5 0, s.getD 10 0, s.getD 15 0,
   s.getD 4 0, s.getD 9 0, s.getD 14 0, s.getD 3 0,
   s.getD 8 0, s.getD 13 0, s.getD 2 0, s.getD 7 0,
   s.getD 12 0, s.getD 1 0, s.getD 6 0, s.getD 11 0]

/-- MixColumns on one column. -/
def mixOne (a b c d : Nat) : List Nat :=
  [xtime a ^^^ gmul3 b ^^^ c ^^^ d,
   a ^^^ xtime b ^^^ gmul3 c ^^^ d,
   a ^^^ b ^^^ xtime c ^^^ gmul3 d,
   gmul3 a ^^^ b ^^^ c ^^^ xtime d]

/-- MixColumns on a column-major 16-byte state. -/
def mixColumns (s : List Nat) : List Nat :=
  mixOne (s.getD 0 0) (s.getD 1 0) (s.getD 2 0) (s.getD 3 0) ++
  mixOne (s.getD 4 0) (s.getD 5 0) (s.getD 6 0) (s.getD 7 0) ++
  mixOne (s.getD 8 0) (s.getD 9 0) (s.getD 10 0) (s.getD 11 0) ++
  mixOne (s.getD 12 0) (s.getD 13 0) (s.getD 14 0) (s.getD 15 0)

/-- AddRoundKey: bytewise xor of state and round key. -/
def addRoundKey (s k : List Nat) : List Nat :=
  (List.range 16).map (fun i => s.getD i 0 ^^^ k.getD i 0)

/-- Round constants for the AES-128 key schedule. -/
def rcon : List Nat := [0x01, 0x02, 0x04, 0x08, 0x10, 0x20, 0x40, 0x80, 0x1b, 0x36]

/-- Rotate a 4-byte word left by one byte. -/
def rotWord (w : List Nat) : List Nat :=
  [w.getD 1 0, w.getD 2 0, w.getD 3 0, w.getD 0 0]

/-- SubBytes on a 4-byte word. -/
def subWord (w : List Nat) : List Nat := w.map sboxAt

/-- Bytewise xor of two 4-byte words. -/
def xorWord (a b : List Nat) : List Nat :=
  (List.range 4).map (fun i => a.getD i 0 ^^^ b.getD i 0)

/-- One key-schedule step: round key `r - 1` (as four words) to round key `r`. -/
def nextRoundKey (r : Nat) (w : List (List Nat)) : List (List Nat) :=
  let w3 := w.getD 3 []
  let t := xorWord (subWord (rotWord w3)) [rcon.getD (r - 1) 0, 0, 0, 0]
  let n0 := xorWord (w.getD 0 []) t
  let n1 := xorWord (w.getD 1 []) n0
  let n2 := xorWord (w.getD 2 []) n1
  let n3 := xorWord w3 n2
  [n0, n1, n2, n3]

/-- The 16-byte cipher key as four 4-byte words. -/
def keyWords (key : List Nat) : List (List Nat) :=
  [[key.getD 0 0, key.getD 1 0, key.getD 2 0, key.getD 3 0],
   [key.getD 4 0, key.getD 5 0, key.getD 6 0, key.getD 7 0],
   [key.getD 8 0, key.getD 9 0, key.getD 10 0, key.getD 11 0],
   [key.getD 12 0, key.getD 13 0, key.getD 14 0, key.getD 15 0]]

/-- Collect `n + 1` round keys (each flattened to 16 bytes) starting from
round key `cur`, whose next round index is `r`. -/
def roundKeysAux (r : Nat) (cur : List (List Nat)) : Nat → List (List Nat)
  | 0 => [cur.flatten]
  | n + 1 => cur.flatten :: roundKeysAux (r + 1) (nextRoundKey r cur) n

/-- The eleven AES-128 round keys. -/
def roundKeys (key : List Nat) : List (List Nat) :=
  roundKeysAux 1 (keyWords key) 10

/-- The selected round key (16 bytes). -/
def rkAt (ks : List (List Nat)) (i : Nat) : List Nat := ks.getD i []

/-- A full AES round. -/
def aesRound (rk s : List Nat) : List Nat :=
  addRoundKey (mixColumns (shiftRows (subBytes s))) rk

/-- The final AES round (no MixColumns). -/
def aesFinalRound (rk s : List Nat) : List Nat :=
  addRoundKey (shiftRows (subBytes s)) rk

/-- AES-128 encryption of a single 16-byte block. -/
def aes128EncryptBlock (key block : List Nat) : List Nat :=
  let ks := roundKeys key
  let s0 := addRoundKey block (rkAt ks 0)
  let s1 := aesRound (rkAt ks 1) s0
  let s2 := aesRound (rkAt ks 2) s1
  let s3 := aesRound (rkAt ks 3) s2
  let s4 := aesRound (rkAt ks 4) s3
  let s5 := aesRound (rkAt ks 5) s4
  let s6 := aesRound (rkAt ks 6) s5
  let s7 := aesRound (rkAt ks 7) s6
  let s8 := aesRound (rkAt ks 8) s7
  let s9 := aesRound (rkAt ks 9) s8
  aesFinalRound (rkAt ks 10) s9

/-- Zero-right-pad a byte string to 16 bytes, truncating it first if longer
(`Buffer.alloc(16)` plus `copy`, with the key additionally `subarray(0,16)`;
both reduce to the same operation). -/
def padTo16 (bytes : List Nat) : List Nat :=
  (bytes ++ List.replicate 16 0).take 16

/-- One uppercase hexadecimal digit. -/
def hexDigit (n : Nat) : Char :=
  if n < 10 then Char.ofNat (48 + n) else Char.ofNat (55 + n)

/-- A byte as exactly two uppercase hexadecimal digits. -/
def hexByte (b : Nat) : List Char :=
  [hexDigit (b / 16 % 16), hexDigit (b % 16)]

/-- `Buffer.toString('hex').toUpperCase()`. -/
def toUpperHex (bs : List Nat) : String :=
  String.mk (bs.map hexByte).flatten

/-- `getAccessToken(key, token)` on the UTF-8 bytes of the two JS strings:
AES-128-ECB of the zero-padded token block under the zero-padded key,
rendered as uppercase hex. -/
def getAccessToken (key token : List Nat) : String :=
  toUpperHex (aes128EncryptBlock (padTo16 key) (padTo16 token))

/-- Sanity check of the AES embedding: FIPS-197 appendix C.1 (AES-128). -/
theorem aes128_fips197_vector :
    aes128EncryptBlock
        [0x00, 0x01, 0x02, 0x03, 0x04, 0x05, 0x06, 0x07,
         0x08, 0x09, 0x0a, 0x0b, 0x0c, 0x0d, 0x0e, 0x0f]
        [0x00, 0x11, 0x22, 0x33, 0x44, 0x55, 0x66, 0x77,
         0x88, 0x99, 0xaa, 0xbb, 0xcc, 0xdd, 0xee, 0xff]
      = [0x69, 0xc4, 0xe0, 0xd8, 0x6a, 0x7b, 0x04, 0x30,
         0xd8, 0xcd, 0xb7, 0x80, 0x70, 0xb4, 0xc5, 0x5a] := by
  decide

/-! ## Movement tracker (`src/platformAccessory.ts`) -/

/-- `POSITION_TOLERANCE = 2`. -/
def POSITION_TOLERANCE : Int := 2

/-- `MAX_MOVEMENT_TIMEOUT = 90000` (ms). -/
def MAX_MOVEMENT_TIMEOUT : Nat := 90000

/-- `POSITION_STATE.DECREASING = 0`. -/
def POSITION_STATE.DECREASING : Nat := 0

/-- `POSITION_STATE.INCREASING = 1`. -/
def POSITION_STATE.INCREASING : Nat := 1

/-- `POSITION_STATE.STOPPED = 2`. -/
def POSITION_STATE.STOPPED : Nat := 2

/-- The `BlindState` telemetry payload (`src/motionGateway.ts`).  Only
`currentPosition` (protocol units) is consulted by the tracker. -/
structure BlindState where
  type : Int
  operation : Int
  currentPosition : Int
  currentAngle : Int
  currentState : Int
  voltageMode : Int
  batteryLevel : Int
  chargingState : Int
  wirelessMode : Int
  RSSI : Int
deriving DecidableEq

/-- The mutable fields of `MotionBlindAccessory`.  `commandTimeoutTimer` holds
the armed deadline duration in ms (`none` once cleared); `pollTimersActive`
records whether the decaying poll schedule is armed. -/
structure TrackerState where
  confirmedPosition : Int
  displayPosition : Int
  displayTargetPosition : Int
  displayPositionState : Nat
  commandInProgress : Bool
  commandTarget : Int
  commandDirection : Nat
  commandTimeoutTimer : Option Nat
  pollTimersActive : Bool
deriving DecidableEq

/-- The field initialisers of `MotionBlindAccessory`. -/
def initialState : TrackerState :=
  { confirmedPosition := 0
    displayPosition := 0
    displayTargetPosition := 0
    displayPositionState := POSITION_STATE.STOPPED
    commandInProgress := false
    commandTarget := 0
    commandDirection := POSITION_STATE.STOPPED
    commandTimeoutTimer := none
    pollTimersActive := false }

/-- `protocolToHomeKit`: protocol 0 = fully open, 100 = fully closed;
HomeKit is the complement. -/
def protocolToHomeKit (protocolPosition : Int) : Int :=
  100 - protocolPosition

/-- `homeKitToProtocol`. -/
def homeKitToProtocol (homeKitPosition : Int) : Int :=
  100 - homeKitPosition

/-- `hasReachedTarget`: `Math.abs(position - commandTarget) <= POSITION_TOLERANCE`. -/
def hasReachedTarget (s : TrackerState) (position : Int) : Bool :=
  |position - s.commandTarget| ≤ POSITION_TOLERANCE

/-- `cancelCurrentCommand`: drop the in-progress flag, clear the deadline
timer (`clearCommandTimeout`) and cancel the poll schedule (`cancelPolling`). -/
def cancelCurrentCommand (s : TrackerState) : TrackerState :=
  { s with commandInProgress := false
           commandTimeoutTimer := none
           pollTimersActive := false }

/-- `completeCommand(finalPosition)`: the blind reached its target. -/
def completeCommand (s : TrackerState) (finalPosition : Int) : TrackerState :=
  { s with commandInProgress := false
           confirmedPosition := finalPosition
           displayPosition := finalPosition
           displayTargetPosition := finalPosition
           displayPositionState := POSITION_STATE.STOPPED
           commandTimeoutTimer := none
           pollTimersActive := false }

/-- Gateway-facing actions performed by the tracker, in program order. -/
inductive Effect where
  /-- `gateway.stop(mac)` was awaited (best-effort where so marked). -/
  | sendStop : Effect
  /-- `gateway.setPosition(mac, protocolPosition)` was awaited. -/
  | sendSetPosition (protocolPosition : Int) : Effect
  /-- `gateway.getStatus(mac)` was issued immediately. -/
  | queryStatus : Effect
  /-- A `gateway.getStatus(mac)` call was scheduled `delayMs` later. -/
  | scheduleStatusQuery (delayMs : Nat) : Effect
deriving DecidableEq

/-- `handleCommandTimeout`: fall back to the last displayed position, cancel
polling, and request one fresh status.  (The deadline timer itself has already
fired and is not re-cleared by this handler.) -/
def handleCommandTimeout (s : TrackerState) : TrackerState × List Effect :=
  ({ s with commandInProgress := false
            displayPositionState := POSITION_STATE.STOPPED
            displayTargetPosition := s.displayPosition
            pollTimersActive := false },
   [Effect.queryStatus])

/-- The 90 s deadline timer fires: the one-shot timer is consumed, and the
callback runs `handleCommandTimeout` only if a command is still in progress. -/
def fireCommandTimeout (s : TrackerState) : TrackerState × List Effect :=
  let s0 := { s with commandTimeoutTimer := none }
  if s0.commandInProgress then handleCommandTimeout s0 else (s0, [])

/-- `updateState(state)`: process one gateway status reading. -/
def updateState (s : TrackerState) (state : BlindState) : TrackerState :=
  let gatewayPosition := protocolToHomeKit state.currentPosition
  if !s.commandInProgress then
    -- No command in progress - trust gateway completely
    { s with confirmedPosition := gatewayPosition
             displayPosition := gatewayPosition
             displayTargetPosition := gatewayPosition
             displayPositionState := POSITION_STATE.STOPPED }
  else if hasReachedTarget s gatewayPosition then
    completeCommand s gatewayPosition
  else
    -- Still moving - update position if it's progressing toward target
    let isProgressing :=
      if s.commandDirection = POSITION_STATE.INCREASING then
        gatewayPosition > s.displayPosition
      else
        gatewayPosition < s.displayPosition
    if isProgressing then { s with displayPosition := gatewayPosition } else s

/-- Result of a `setTargetPosition` call: the new tracker state, the
gateway-facing effects in program order, and whether a `HapStatusError`
(SERVICE_COMMUNICATION_FAILURE) was thrown to the caller. -/
structure SetTargetResult where
  state : TrackerState
  effects : List Effect
  thrown : Bool
deriving DecidableEq

/-- `setTargetPosition(value)`.  `gatewayPresent` models `platform.gateway`
being non-null; `stopSendOk` and `posSendOk` are the outcomes of the awaited
`gateway.stop` and `gateway.setPosition` sends (`stopSendOk` is best-effort:
its failure is only logged and changes nothing). -/
def setTargetPosition (gatewayPresent stopSendOk posSendOk : Bool)
    (value : Int) (s : TrackerState) : SetTargetResult :=
  if !gatewayPresent then
    { state := s, effects := [], thrown := true }
  else
    let targetPosition := value
    let currentPos := if s.commandInProgress then s.displayPosition else s.confirmedPosition
    if s.commandInProgress = true ∧ |targetPosition - currentPos| ≤ POSITION_TOLERANCE then
      -- "stop" command: cancel tracking, best-effort stop, pin target,
      -- schedule a status query 500 ms later
      let s1 := cancelCurrentCommand s
      let s2 := { s1 with displayTargetPosition := currentPos
                          displayPositionState := POSITION_STATE.STOPPED }
      { state := s2
        effects := [Effect.sendStop, Effect.scheduleStatusQuery 500]
        thrown := false }
    else if |targetPosition - currentPos| ≤ POSITION_TOLERANCE then
      -- already at target: record the requested target, no sends
      { state := { s with displayTargetPosition := targetPosition }
        effects := []
        thrown := false }
    else
      -- new movement command; cancel and best-effort stop any existing one
      let pre : TrackerState × List Effect :=
        if s.commandInProgress then (cancelCurrentCommand s, [Effect.sendStop])
        else (s, [])
      let commandDirection :=
        if targetPosition > currentPos then POSITION_STATE.INCREASING
        else POSITION_STATE.DECREASING
      let s2 := { pre.1 with commandInProgress := true
                             commandTarget := targetPosition
                             commandDirection := commandDirection
                             displayTargetPosition := targetPosition
                             displayPositionState := commandDirection
                             commandTimeoutTimer := some MAX_MOVEMENT_TIMEOUT }
      let sendEff := Effect.sendSetPosition (homeKitToProtocol targetPosition)
      if posSendOk then
        { state := { s2 with pollTimersActive := true }
          effects := pre.2 ++ [sendEff]
          thrown := false }
      else
        -- revert: back to Idle, target pinned to displayed position
        { state := { s2 with commandInProgress := false
                             displayPositionState := POSITION_STATE.STOPPED
                             displayTargetPosition := s2.displayPosition
                             commandTimeoutTimer := none }
          effects := pre.2 ++ [sendEff]
          thrown := true }

/-- One external event hitting the tracker. -/
inductive TrackerEvent where
  /-- A gateway status reading is delivered (`updateState`). -/
  | reading (b : BlindState) : TrackerEvent
  /-- HomeKit issues `setTargetPosition value`, with the given gateway
  presence and send outcomes. -/
  | setTarget (gatewayPresent stopSendOk posSendOk : Bool) (value : Int) : TrackerEvent
  /-- The movement deadline timer fires. -/
  | deadlineFires : TrackerEvent
deriving DecidableEq

/-- The state reached after one event. -/
def runEvent (s : TrackerState) (e : TrackerEvent) : TrackerState :=
  match e with
  | TrackerEvent.reading b => updateState s b
  | TrackerEvent.setTarget gw so po v => (setTargetPosition gw so po v s).state
  | TrackerEvent.deadlineFires => (fireCommandTimeout s).1

/-- An event whose carried protocol position (if any) is within [0,100]. -/
def eventInProtocolRange : TrackerEvent → Bool
  | TrackerEvent.reading b => decide (0 ≤ b.currentPosition ∧ b.currentPosition ≤ 100)
  | _ => true

/-! ## Supporting lemmas -/

/-- `setTargetPosition` never writes the displayed position. -/
theorem setTargetPosition_displayPosition (gw so po : Bool) (v : Int) (s : TrackerState) :
    (setTargetPosition gw so po v s).state.displayPosition = s.displayPosition := by
  simp only [setTargetPosition, cancelCurrentCommand]
  split_ifs <;> rfl

/-- While idle, a status reading keeps the tracker idle. -/
theorem updateState_idle_stays_idle (s : TrackerState) (b : BlindState)
    (h : s.commandInProgress = false) :
    (updateState s b).commandInProgress = false := by
  unfold updateState
  simp [h]

/-- Any sequence of readings starting from an idle tracker leaves it idle. -/
theorem foldl_updateState_stays_idle (rs : List BlindState) (s : TrackerState)
    (h : s.commandInProgress = false) :
    (rs.foldl updateState s).commandInProgress = false := by
  induction rs generalizing s with
  | nil => exact h
  | cons r rs ih => exact ih _ (updateState_idle_stays_idle s r h)

/-- A status reading whose protocol position is within [0,100] keeps the
displayed position within [0,100]. -/
theorem updateState_display_bounds (s : TrackerState) (b : BlindState)
    (hlo : 0 ≤ b.currentPosition) (hhi : b.currentPosition ≤ 100)
    (h : 0 ≤ s.displayPosition ∧ s.displayPosition ≤ 100) :
    0 ≤ (updateState s b).displayPosition ∧ (updateState s b).displayPosition ≤ 100 := by
  simp only [updateState, completeCommand, protocolToHomeKit]
  split_ifs <;> (try exact h) <;> (simp; omega)

/-- Firing the deadline timer never changes the displayed position. -/
theorem fireCommandTimeout_displayPosition (s : TrackerState) :
    (fireCommandTimeout s).1.displayPosition = s.displayPosition := by
  simp only [fireCommandTimeout, handleCommandTimeout]
  split_ifs <;> rfl

/-- Every single event preserves `displayPosition ∈ [0,100]` provided any
carried reading is in protocol range. -/
theorem runEvent_display_bounds (s : TrackerState) (e : TrackerEvent)
    (he : eventInProtocolRange e = true)
    (h : 0 ≤ s.displayPosition ∧ s.displayPosition ≤ 100) :
    0 ≤ (runEvent s e).displayPosition ∧ (runEvent s e).displayPosition ≤ 100 := by
  cases e with
  | reading b =>
      have hb : 0 ≤ b.currentPosition ∧ b.currentPosition ≤ 100 := by
        simpa [eventInProtocolRange] using he
      exact updateState_display_bounds s b hb.1 hb.2 h
  | setTarget gw so po v =>
      simpa [runEvent, setTargetPosition_displayPosition] using h
  | deadlineFires =>
      simpa [runEvent, fireCommandTimeout_displayPosition] using h

/-- A telemetry payload carrying only a protocol position (all other fields
are ignored by the tracker). -/
def sampleReading (p : Int) : BlindState :=
  { type := 0, operation := 0, currentPosition := p, currentAngle := 0,
    currentState := 0, voltageMode := 0, batteryLevel := 0, chargingState := 0,
    wirelessMode := 0, RSSI := 0 }

/-- A tracker mid-command: confirmed 0, displayed 30, moving toward target 100. -/
def movingState : TrackerState :=
  { confirmedPosition := 0
    displayPosition := 30
    displayTargetPosition := 100
    displayPositionState := POSITION_STATE.INCREASING
    commandInProgress := true
    commandTarget := 100
    commandDirection := POSITION_STATE.INCREASING
    commandTimeoutTimer := some MAX_MOVEMENT_TIMEOUT
    pollTimersActive := true }

/-! ## Claim theorems -/

/-- C1, counterexample: a status reading whose protocol position lies outside
[0,100] (here 120, in the initial idle state) drives the displayed position to
-20, outside [0,100]; the claimed invariant fails as stated. -/
theorem reading_outside_range_breaks_display_bounds :
    ([TrackerEvent.reading (sampleReading 120)].foldl runEvent initialState).displayPosition
        = -20 ∧
    ¬ (0 ≤ ([TrackerEvent.reading (sampleReading 120)].foldl runEvent
          initialState).displayPosition) := by
  decide

/-- C1 (amended): for every sequence of set-target requests, deadline firings
and status readings whose protocol positions lie in [0,100], the displayed
position stays within [0,100].  (Out-of-range protocol readings are passed
through unclamped, so the hypothesis on readings is necessary.) -/
theorem displayPosition_stays_in_bounds (events : List TrackerEvent)
    (h : ∀ e ∈ events, eventInProtocolRange e = true) :
    0 ≤ (events.foldl runEvent initialState).displayPosition ∧
      (events.foldl runEvent initialState).displayPosition ≤ 100 := by
  have main : ∀ (l : List TrackerEvent) (s : TrackerState),
      (∀ e ∈ l, eventInProtocolRange e = true) →
      0 ≤ s.displayPosition ∧ s.displayPosition ≤ 100 →
      0 ≤ (l.foldl runEvent s).displayPosition ∧
        (l.foldl runEvent s).displayPosition ≤ 100 := by
    intro l
    induction l with
    | nil => intro s _ hs; exact hs
    | cons e l ih =>
        intro s hl hs
        exact ih _ (fun x hx => hl x (List.mem_cons_of_mem e hx))
          (runEvent_display_bounds s e (hl e (List.mem_cons_self e l)) hs)
  exact main events initialState h (by constructor <;> simp [initialState])

theorem displayPosition_stays_in_bounds_witness :
    0 ≤ ([TrackerEvent.setTarget true true true 80,
          TrackerEvent.reading (sampleReading 40)].foldl runEvent
            initialState).displayPosition ∧
      ([TrackerEvent.setTarget true true true 80,
        TrackerEvent.reading (sampleReading 40)].foldl runEvent
          initialState).displayPosition ≤ 100 :=
  displayPosition_stays_in_bounds _ (by decide)

/-- C2: while a command is in progress, a reading within the 2-unit tolerance
of the commanded target completes the command: the tracker goes idle with
confirmed, displayed and target positions all equal to the reading's host
value, motion-state stopped, and the deadline and poll timers cancelled;
every subsequent reading leaves the tracker idle (it is handled by the idle
rule). -/
theorem reading_within_tolerance_completes (s : TrackerState) (b : BlindState)
    (hc : s.commandInProgress = true)
    (ht : hasReachedTarget s (protocolToHomeKit b.currentPosition) = true) :
    (updateState s b).commandInProgress = false ∧
    (updateState s b).confirmedPosition = protocolToHomeKit b.currentPosition ∧
    (updateState s b).displayPosition = protocolToHomeKit b.currentPosition ∧
    (updateState s b).displayTargetPosition = protocolToHomeKit b.currentPosition ∧
    (updateState s b).displayPositionState = POSITION_STATE.STOPPED ∧
    (updateState s b).commandTimeoutTimer = none ∧
    (updateState s b).pollTimersActive = false ∧
    ∀ rs : List BlindState, (rs.foldl updateState (updateState s b)).commandInProgress = false := by
  have hu : updateState s b = completeCommand s (protocolToHomeKit b.currentPosition) := by
    simp [updateState, hc, ht]
  rw [hu]
  refine ⟨rfl, rfl, rfl, rfl, rfl, rfl, rfl, fun rs => ?_⟩
  exact foldl_updateState_stays_idle rs _ rfl

theorem reading_within_tolerance_completes_witness :
    (updateState movingState (sampleReading 2)).displayPosition = 98 ∧
    (updateState movingState (sampleReading 2)).commandInProgress = false ∧
    ([sampleReading 50].foldl updateState
        (updateState movingState (sampleReading 2))).commandInProgress = false := by
  have h := reading_within_tolerance_completes movingState (sampleReading 2) rfl (by decide)
  exact ⟨h.2.2.1, h.1, h.2.2.2.2.2.2.2 [sampleReading 50]⟩

/-- C3: a set-target request within the 2-unit tolerance of the currently
displayed position, while a command is in progress, is treated as a stop:
the command is cancelled (deadline and poll timers cleared), exactly a
best-effort stop is sent followed by a status query scheduled 500 ms later
(no setPosition), the displayed target is pinned to the displayed position,
motion-state is stopped, and the call succeeds regardless of the stop send's
outcome. -/
theorem setTarget_moving_within_tolerance_stops (s : TrackerState)
    (stopOk posOk : Bool) (t : Int)
    (hc : s.commandInProgress = true)
    (ht : |t - s.displayPosition| ≤ POSITION_TOLERANCE) :
    (setTargetPosition true stopOk posOk t s).thrown = false ∧
    (setTargetPosition true stopOk posOk t s).effects
        = [Effect.sendStop, Effect.scheduleStatusQuery 500] ∧
    (setTargetPosition true stopOk posOk t s).state.commandInProgress = false ∧
    (setTargetPosition true stopOk posOk t s).state.commandTimeoutTimer = none ∧
    (setTargetPosition true stopOk posOk t s).state.pollTimersActive = false ∧
    (setTargetPosition true stopOk posOk t s).state.displayTargetPosition = s.displayPosition ∧
    (setTargetPosition true stopOk posOk t s).state.displayPositionState
        = POSITION_STATE.STOPPED ∧
    (setTargetPosition true stopOk posOk t s).state.displayPosition = s.displayPosition ∧
    (setTargetPosition true stopOk posOk t s).state.confirmedPosition = s.confirmedPosition := by
  simp [setTargetPosition, cancelCurrentCommand, hc, ht]

theorem setTarget_moving_within_tolerance_stops_witness :
    (setTargetPosition true true true 31 movingState).thrown = false ∧
    (setTargetPosition true true true 31 movingState).effects
        = [Effect.sendStop, Effect.scheduleStatusQuery 500] ∧
    (setTargetPosition true true true 31 movingState).state.displayTargetPosition = 30 := by
  have h := setTarget_moving_within_tolerance_stops movingState true true 31 rfl (by decide)
  exact ⟨h.1, h.2.1, h.2.2.2.2.2.1⟩

/-- C4: while a command is in progress and the reading is not within tolerance
of the target, the reading moves the displayed position only when it is
strictly beyond the current displayed position in the commanded direction;
otherwise nothing changes, and in every case the motion-state, confirmed
position, displayed target and command fields are untouched. -/
theorem moving_reading_progress_filter (s : TrackerState) (b : BlindState)
    (hc : s.commandInProgress = true)
    (ht : hasReachedTarget s (protocolToHomeKit b.currentPosition) = false) :
    (updateState s b).displayPositionState = s.displayPositionState ∧
    (updateState s b).confirmedPosition = s.confirmedPosition ∧
    (updateState s b).displayTargetPosition = s.displayTargetPosition ∧
    (updateState s b).commandInProgress = true ∧
    (updateState s b).commandTarget = s.commandTarget ∧
    (s.commandDirection = POSITION_STATE.INCREASING →
      (updateState s b).displayPosition =
        if s.displayPosition < protocolToHomeKit b.currentPosition
        then protocolToHomeKit b.currentPosition else s.displayPosition) ∧
    (s.commandDirection = POSITION_STATE.DECREASING →
      (updateState s b).displayPosition =
        if protocolToHomeKit b.currentPosition < s.displayPosition
        then protocolToHomeKit b.currentPosition else s.displayPosition) := by
  simp only [updateState, hc, ht]
  refine ⟨?_, ?_, ?_, ?_, ?_, ?_, ?_⟩ <;>
    simp <;> split_ifs <;>
      simp_all [POSITION_STATE.INCREASING, POSITION_STATE.DECREASING]

theorem moving_reading_progress_filter_witness :
    (updateState movingState (sampleReading 40)).displayPosition = 60 ∧
    (updateState movingState (sampleReading 90)).displayPosition = 30 ∧
    (updateState movingState (sampleReading 40)).displayPositionState
        = POSITION_STATE.INCREASING := by
  have h1 := moving_reading_progress_filter movingState (sampleReading 40) rfl (by decide)
  have h2 := moving_reading_progress_filter movingState (sampleReading 90) rfl (by decide)
  refine ⟨?_, ?_, ?_⟩
  · have := h1.2.2.2.2.2.1 rfl
    simpa using this
  · have := h2.2.2.2.2.2.1 rfl
    simpa using this
  · exact h1.1

/-- C5: `MAX_MOVEMENT_TIMEOUT` is 90000 ms; starting a new movement command
arms the deadline to that duration; and when the deadline fires with a command
still in progress the tracker forcibly goes idle — motion-state stopped,
displayed target pinned to the last displayed position, poll timers cancelled,
exactly one corrective status query issued, and the displayed and confirmed
positions unchanged. -/
theorem movement_deadline_timeout_recovery :
    MAX_MOVEMENT_TIMEOUT = 90000 ∧
    (∀ s : TrackerState, s.commandInProgress = true →
      (fireCommandTimeout s).1.commandInProgress = false ∧
      (fireCommandTimeout s).1.displayPositionState = POSITION_STATE.STOPPED ∧
      (fireCommandTimeout s).1.displayTargetPosition = s.displayPosition ∧
      (fireCommandTimeout s).1.pollTimersActive = false ∧
      (fireCommandTimeout s).1.displayPosition = s.displayPosition ∧
      (fireCommandTimeout s).1.confirmedPosition = s.confirmedPosition ∧
      (fireCommandTimeout s).2 = [Effect.queryStatus]) ∧
    (∀ (s : TrackerState) (stopOk : Bool) (t : Int),
      POSITION_TOLERANCE <
          |t - (if s.commandInProgress then s.displayPosition else s.confirmedPosition)| →
      (setTargetPosition true stopOk true t s).state.commandTimeoutTimer
          = some MAX_MOVEMENT_TIMEOUT) := by
  refine ⟨rfl, ?_, ?_⟩
  · intro s hc
    simp [fireCommandTimeout, handleCommandTimeout, hc]
  · intro s stopOk t h
    have hnot : ¬ |t - (if s.commandInProgress then s.displayPosition
        else s.confirmedPosition)| ≤ POSITION_TOLERANCE := not_le.mpr h
    simp [setTargetPosition, cancelCurrentCommand, hnot]

theorem movement_deadline_timeout_recovery_witness :
    (fireCommandTimeout movingState).1.commandInProgress = false ∧
    (fireCommandTimeout movingState).2 = [Effect.queryStatus] ∧
    (setTargetPosition true true true 80 initialState).state.commandTimeoutTimer
        = some MAX_MOVEMENT_TIMEOUT := by
  refine ⟨(movement_deadline_timeout_recovery.2.1 movingState rfl).1,
          (movement_deadline_timeout_recovery.2.1 movingState rfl).2.2.2.2.2.2,
          movement_deadline_timeout_recovery.2.2 initialState true 80 (by decide)⟩

/-- C6, counterexample: the failure path does not restore the displayed
target to its pre-command value — it pins it to the displayed position.
From the initial state, a request for target 2 (within tolerance, no send)
leaves displayed target 2 and displayed position 0; a following request for
target 50 whose setPosition send fails reverts with displayed target 0 ≠ 2,
so not every optimistic state change is reverted. -/
theorem setPosition_failure_target_not_restored :
    ((setTargetPosition true true true 2 initialState).state.displayTargetPosition = 2) ∧
    ((setTargetPosition true true false 50
        (setTargetPosition true true true 2 initialState).state).thrown = true) ∧
    ((setTargetPosition true true false 50
        (setTargetPosition true true true 2 initialState).state).state.displayTargetPosition
      ≠ (setTargetPosition true true true 2 initialState).state.displayTargetPosition) := by
  decide

/-- C6 (amended): if the setPosition send of a new movement command fails,
the tracker reverts to idle — command no longer in progress, deadline timer
cleared, motion-state stopped — without changing the displayed or confirmed
position, and the failure is thrown to the caller; the displayed target is
pinned to the displayed position (which need not be its pre-command value). -/
theorem setPosition_failure_reverts_to_idle (s : TrackerState) (stopOk : Bool) (t : Int)
    (h : POSITION_TOLERANCE <
        |t - (if s.commandInProgress then s.displayPosition else s.confirmedPosition)|) :
    (setTargetPosition true stopOk false t s).thrown = true ∧
    (setTargetPosition true stopOk false t s).state.commandInProgress = false ∧
    (setTargetPosition true stopOk false t s).state.commandTimeoutTimer = none ∧
    (setTargetPosition true stopOk false t s).state.displayPositionState
        = POSITION_STATE.STOPPED ∧
    (setTargetPosition true stopOk false t s).state.displayPosition = s.displayPosition ∧
    (setTargetPosition true stopOk false t s).state.confirmedPosition = s.confirmedPosition ∧
    (setTargetPosition true stopOk false t s).state.displayTargetPosition = s.displayPosition := by
  have hnot : ¬ |t - (if s.commandInProgress then s.displayPosition
      else s.confirmedPosition)| ≤ POSITION_TOLERANCE := not_le.mpr h
  simp only [setTargetPosition, cancelCurrentCommand]
  simp [hnot]
  split_ifs <;> simp

theorem setPosition_failure_reverts_to_idle_witness :
    (setTargetPosition true true false 50 initialState).thrown = true ∧
    (setTargetPosition true true false 50 initialState).state.commandInProgress = false ∧
    (setTargetPosition true true false 50 initialState).state.displayPosition = 0 := by
  have h := setPosition_failure_reverts_to_idle initialState true 50 (by decide)
  exact ⟨h.1, h.2.1, h.2.2.2.2.1⟩

/-- C9: the protocol/host position mapping is its own inverse on [0,100], and
both directions are the complement `100 - x`. -/
theorem protocol_host_mapping_involutive :
    (∀ x : Int, 0 ≤ x → x ≤ 100 → homeKitToProtocol (protocolToHomeKit x) = x) ∧
    (∀ p : Int, protocolToHomeKit p = 100 - p) ∧
    (∀ h : Int, homeKitToProtocol h = 100 - h) := by
  refine ⟨fun x _ _ => ?_, fun p => rfl, fun h => rfl⟩
  simp [homeKitToProtocol, protocolToHomeKit]

theorem protocol_host_mapping_involutive_witness :
    homeKitToProtocol (protocolToHomeKit 30) = 30 ∧ protocolToHomeKit 30 = 70 :=
  ⟨protocol_host_mapping_involutive.1 30 (by decide) (by decide),
   protocol_host_mapping_involutive.2.1 30⟩

/-- C8: `writeDevice`/`setPosition` clamp the transmitted target position to
[0,100], and transmit the input unchanged whenever it already lies in
[0,100]. -/
theorem setPosition_clamps_target (p : Int) :
    (setPosition p).targetPosition = some (max 0 (min 100 p)) ∧
    (∀ q : Int, (setPosition p).targetPosition = some q → 0 ≤ q ∧ q ≤ 100) ∧
    (0 ≤ p → p ≤ 100 → (setPosition p).targetPosition = some p) := by
  refine ⟨rfl, ?_, ?_⟩
  · intro q hq
    simp [setPosition, writeDevice] at hq
    omega
  · intro h1 h2
    simp [setPosition, writeDevice]
    omega

theorem setPosition_clamps_target_witness :
    (setPosition 42).targetPosition = some 42 ∧
    (setPosition 42).targetPosition = some (max 0 (min 100 42)) :=
  ⟨(setPosition_clamps_target 42).2.2 (by decide) (by decide),
   (setPosition_clamps_target 42).1⟩

/-- C10: a set-target request arriving while idle, within the 2-unit
tolerance of the confirmed position, sends nothing to the gateway, records
the requested value as displayed target, leaves displayed position,
confirmed position and motion-state unchanged, and succeeds. -/
theorem setTarget_idle_within_tolerance_frame (s : TrackerState)
    (stopOk posOk : Bool) (t : Int)
    (hc : s.commandInProgress = false)
    (ht : |t - s.confirmedPosition| ≤ POSITION_TOLERANCE) :
    (setTargetPosition true stopOk posOk t s).thrown = false ∧
    (setTargetPosition true stopOk posOk t s).effects = [] ∧
    (setTargetPosition true stopOk posOk t s).state.displayTargetPosition = t ∧
    (setTargetPosition true stopOk posOk t s).state.displayPosition = s.displayPosition ∧
    (setTargetPosition true stopOk posOk t s).state.confirmedPosition = s.confirmedPosition ∧
    (setTargetPosition true stopOk posOk t s).state.displayPositionState
        = s.displayPositionState ∧
    (setTargetPosition true stopOk posOk t s).state.commandInProgress = false := by
  simp [setTargetPosition, hc, ht]

theorem setTarget_idle_within_tolerance_frame_witness :
    (setTargetPosition true true true 2 initialState).effects = [] ∧
    (setTargetPosition true true true 2 initialState).state.displayTargetPosition = 2 ∧
    (setTargetPosition true true true 2 initialState).state.displayPosition = 0 := by
  have h := setTarget_idle_within_tolerance_frame initialState true true 2 rfl (by decide)
  exact ⟨h.2.1, h.2.2.1, h.2.2.2.1⟩

/-- Hexadecimal digits below 16 are uppercase-hex characters. -/
theorem hexDigit_mem_charset (n : Nat) (h : n < 16) :
    hexDigit n ∈ "0123456789ABCDEF".toList := by
  interval_cases n <;> decide

/-- `toUpperHex` emits exactly two characters per byte. -/
theorem toUpperHex_length (bs : List Nat) : (toUpperHex bs).length = 2 * bs.length := by
  induction bs with
  | nil => rfl
  | cons b bs ih =>
      simp only [toUpperHex, String.length] at ih ⊢
      simp only [List.map_cons, List.flatten_cons, hexByte, List.length_append] at ih ⊢
      simp at ih ⊢
      omega

/-- Every character `toUpperHex` emits is an uppercase-hex character. -/
theorem toUpperHex_chars (bs : List Nat) :
    ∀ c ∈ (toUpperHex bs).toList, c ∈ "0123456789ABCDEF".toList := by
  intro c hc
  simp only [toUpperHex, String.toList, String.data] at hc
  rw [List.mem_flatten] at hc
  obtain ⟨l, hl, hcl⟩ := hc
  rw [List.mem_map] at hl
  obtain ⟨b, _, rfl⟩ := hl
  simp only [hexByte, List.mem_cons, List.mem_singleton] at hcl
  rcases hcl with rfl | rfl | h
  · exact hexDigit_mem_charset _ (Nat.mod_lt _ (by decide))
  · exact hexDigit_mem_charset _ (Nat.mod_lt _ (by decide))
  · cases h

/-- C7, counterexample: token derivation is not injective in the inputs.
The two secrets below differ (in their 17th byte) yet both truncate and pad
to the same 16-byte key block, so they yield the same token for the same
nonce; the claim that differing secrets give differing tokens is false. -/
theorem getAccessToken_collision :
    ([97, 97, 97, 97, 97, 97, 97, 97, 97, 97, 97, 97, 97, 97, 97, 97, 88] : List Nat)
        ≠ [97, 97, 97, 97, 97, 97, 97, 97, 97, 97, 97, 97, 97, 97, 97, 97, 89] ∧
    getAccessToken [97, 97, 97, 97, 97, 97, 97, 97, 97, 97, 97, 97, 97, 97, 97, 97, 88]
        [110, 111, 110, 99, 101]
      = getAccessToken [97, 97, 97, 97, 97, 97, 97, 97, 97, 97, 97, 97, 97, 97, 97, 97, 89]
        [110, 111, 110, 99, 101] := by
  constructor
  · decide
  · have h : padTo16 [97, 97, 97, 97, 97, 97, 97, 97, 97, 97, 97, 97, 97, 97, 97, 97, 88]
        = padTo16 [97, 97, 97, 97, 97, 97, 97, 97, 97, 97, 97, 97, 97, 97, 97, 97, 89] := by
      decide
    simp only [getAccessToken, h]

/-- C7 (amended): token derivation is deterministic and pure — a function of
the two byte strings — and always yields a 32-character uppercase-hexadecimal
token; it depends only on the zero-padded 16-byte truncations of its inputs,
so input pairs sharing those truncations (and only such pairs are exempt from
the original claim) yield the same token. -/
theorem getAccessToken_deterministic_format (key token : List Nat) :
    (getAccessToken key token).length = 32 ∧
    (∀ c ∈ (getAccessToken key token).toList, c ∈ "0123456789ABCDEF".toList) ∧
    (∀ key2 token2 : List Nat, padTo16 key2 = padTo16 key →
      padTo16 token2 = padTo16 token →
      getAccessToken key2 token2 = getAccessToken key token) := by
  refine ⟨?_, toUpperHex_chars _, ?_⟩
  · have hlen : (aes128EncryptBlock (padTo16 key) (padTo16 token)).length = 16 := by
      simp [aes128EncryptBlock, aesFinalRound, addRoundKey]
    rw [getAccessToken, toUpperHex_length, hlen]
  · intro key2 token2 h1 h2
    simp only [getAccessToken, h1, h2]

theorem getAccessToken_deterministic_format_witness :
    (getAccessToken [107, 101, 121] [110, 111, 110, 99, 101]).length = 32 ∧
    getAccessToken [107, 101, 121, 0] [110, 111, 110, 99, 101]
      = getAccessToken [107, 101, 121] [110, 111, 110, 99, 101] := by
  have h := getAccessToken_deterministic_format [107, 101, 121] [110, 111, 110, 99, 101]
  exact ⟨h.1, h.2.2 [107, 101, 121, 0] [110, 111, 110, 99, 101] (by decide) (by decide)⟩

end MotionBlinds
